import Mathlib

/-!
# Verification of the pytest-fallback output-capture subsystem

Shallow embedding of `lib/spack/external/pytest-fallback/_pytest/capture.py`:
the `FDCapture` / `SysCapture` stream captures, `MultiCapture`, the capture
manager and the `capsys`/`capfd` fixtures, together with theorems settling
the specification's claims about them.

Machine-level conventions of the embedding:
* bytes and text code points are `Nat`s (`Bytes`, `Text` below);
* the OS file-descriptor table is an association list `fd ↦ open-file id`;
  `os.fstat` succeeds exactly on fds present in the table, `os.dup2`
  rebinds the destination fd to the source's open file;
* Python exceptions are the `Except PyErr` monad: a raised exception is an
  `.error`, a normal return is `.ok`.
-/

/-- A byte value (0..255 in all reachable states). -/
abbrev Byte := Nat

/-- A byte string, as written to an OS-level file descriptor. -/
abbrev Bytes := List Nat

/-- Decoded text, as a list of Unicode code points. -/
abbrev Text := List Nat

/-- The Python exceptions the capture subsystem can raise. -/
inductive PyErr where
  | valueError (msg : String)
  | keyError
  | attributeError
  | osError
  | ioError (msg : String)
  | unsupportedOperation (msg : String)
deriving Repr, DecidableEq

/-- The three captured process streams, `patchsysdict = {0: stdin, 1: stdout, 2: stderr}`. -/
inductive StreamId where
  | stdin
  | stdout
  | stderr
deriving Repr, DecidableEq

/-- `patchsysdict` lookup: which process stream a low fd number denotes. -/
def patchsysdict (fd : Nat) : Option StreamId :=
  if fd = 0 then some .stdin
  else if fd = 1 then some .stdout
  else if fd = 2 then some .stderr
  else none

/-! ## UTF-8 decoding with replacement

`FDCapture.snap` decodes the bytes read from its buffer with
`py.builtin._totext(res, enc, "replace")`, i.e. `bytes.decode(enc, "replace")`:
undecodable byte sequences become U+FFFD instead of raising.  The decoder is
fuel-indexed (the fuel is the length of the input, and every step consumes at
least one byte), which makes totality immediate. -/

/-- Is `b` a UTF-8 continuation byte (`0x80..0xBF`)? -/
def isCont (b : Nat) : Bool := 0x80 ≤ b && b < 0xC0

/-- One pass of the replacement decoder; `fuel` bounds the number of steps. -/
def utf8DecodeGo : Nat → List Nat → List Nat
  | 0, _ => []
  | _ + 1, [] => []
  | fuel + 1, b :: rest =>
    if b < 0x80 then
      b :: utf8DecodeGo fuel rest
    else if b < 0xC2 then
      -- stray continuation byte or overlong lead: replaced
      0xFFFD :: utf8DecodeGo fuel rest
    else if b < 0xE0 then
      match rest with
      | b2 :: rest2 =>
        if isCont b2 then
          ((b - 0xC0) * 64 + (b2 - 0x80)) :: utf8DecodeGo fuel rest2
        else
          0xFFFD :: utf8DecodeGo fuel rest
      | [] => [0xFFFD]
    else if b < 0xF0 then
      match rest with
      | b2 :: b3 :: rest3 =>
        if isCont b2 && isCont b3 then
          ((b - 0xE0) * 4096 + (b2 - 0x80) * 64 + (b3 - 0x80)) :: utf8DecodeGo fuel rest3
        else
          0xFFFD :: utf8DecodeGo fuel rest
      | _ => 0xFFFD :: utf8DecodeGo fuel rest.tail
    else if b < 0xF5 then
      match rest with
      | b2 :: b3 :: b4 :: rest4 =>
        if isCont b2 && isCont b3 && isCont b4 then
          ((b - 0xF0) * 262144 + (b2 - 0x80) * 4096 + (b3 - 0x80) * 64 + (b4 - 0x80))
            :: utf8DecodeGo fuel rest4
        else
          0xFFFD :: utf8DecodeGo fuel rest
      | _ => 0xFFFD :: utf8DecodeGo fuel rest.tail
    else
      -- invalid lead byte
      0xFFFD :: utf8DecodeGo fuel rest

/-- `bytes.decode(enc, "replace")`: total, never raises. -/
def utf8DecodeReplace (bs : Bytes) : Text :=
  utf8DecodeGo bs.length bs

/-! ## The OS file-descriptor table -/

/-- The process fd table: each open descriptor is bound to an open-file id.
`os.fstat(fd)` succeeds exactly when `fd` is present. -/
structure OSState where
  fdTable : List (Nat × Nat)
deriving Repr, DecidableEq

/-- `os.fstat(fd)` succeeds iff the descriptor is open. -/
def OSState.fstatOk (os : OSState) (fd : Nat) : Bool :=
  (os.fdTable.lookup fd).isSome

/-- Rebind descriptor `fd` to open file `ofd` (replacing any previous binding). -/
def OSState.setFd (os : OSState) (fd ofd : Nat) : OSState :=
  { fdTable := (fd, ofd) :: os.fdTable.filter (fun p => p.1 != fd) }

/-- A descriptor number not currently in use. -/
def OSState.freshFd (os : OSState) : Nat :=
  (os.fdTable.map Prod.fst).foldr Nat.max 0 + 1

/-- An open-file id not currently in use. -/
def OSState.freshOfd (os : OSState) : Nat :=
  (os.fdTable.map Prod.snd).foldr Nat.max 0 + 1

/-- `os.dup(fd)`: duplicate `fd` onto a fresh descriptor; `OSError` if `fd` is closed. -/
def OSState.dup (os : OSState) (fd : Nat) : Except PyErr (Nat × OSState) :=
  match os.fdTable.lookup fd with
  | none => .error .osError
  | some ofd =>
    let nfd := os.freshFd
    .ok (nfd, os.setFd nfd ofd)

/-- `os.dup2(src, dst)`: make `dst` refer to `src`'s open file; `OSError` if `src` is closed. -/
def OSState.dup2 (os : OSState) (src dst : Nat) : Except PyErr OSState :=
  match os.fdTable.lookup src with
  | none => .error .osError
  | some ofd => .ok (os.setFd dst ofd)

/-- `os.close(fd)`: remove the descriptor from the table. -/
def OSState.close (os : OSState) (fd : Nat) : OSState :=
  { fdTable := os.fdTable.filter (fun p => p.1 != fd) }

/-- Open a brand-new file (e.g. `TemporaryFile()` or `open(os.devnull)`):
a fresh descriptor bound to a fresh open file. -/
def OSState.openNew (os : OSState) : Nat × OSState :=
  let fd := os.freshFd
  (fd, os.setFd fd os.freshOfd)

/-! ## OS-level buffer files (the `FDCapture` tmpfile) -/

/-- An OS-level file as seen by the capture's tmpfile: a byte content, a
position, and whether the file is wrapped in an `EncodedFile` (and so carries
a declared text `encoding`).  Writes overwrite-and-extend at the position, as
POSIX files do. -/
structure FDFile where
  content : Bytes
  pos : Nat
  enc : Bool
deriving Repr, DecidableEq

/-- `f.write(data)` at the current position. -/
def FDFile.write (f : FDFile) (data : Bytes) : FDFile :=
  { f with
    content := f.content.take f.pos ++ data ++ f.content.drop (f.pos + data.length)
    pos := f.pos + data.length }

/-! ## Process-level stream handles (`sys.stdin` / `sys.stdout` / `sys.stderr`) -/

/-- What a process-level stream handle can point at: the real stream, the
`DontReadFromInput` pseudofile, a standalone `CaptureIO` text buffer owned by
the `SysCapture` of stream `s`, or the `EncodedFile` shared with the
`FDCapture` of stream `s`. -/
inductive Handle where
  | real (s : StreamId)
  | dontRead
  | capioH (s : StreamId)
  | encodedH (s : StreamId)
deriving Repr, DecidableEq

/-- The three process-wide stream handles (`sys.stdin`, `sys.stdout`, `sys.stderr`). -/
structure SysWorld where
  stdinH : Handle
  stdoutH : Handle
  stderrH : Handle
deriving Repr, DecidableEq

/-- `getattr(sys, name)`. -/
def SysWorld.get (w : SysWorld) : StreamId → Handle
  | .stdin => w.stdinH
  | .stdout => w.stdoutH
  | .stderr => w.stderrH

/-- `setattr(sys, name, h)`. -/
def SysWorld.set (w : SysWorld) (s : StreamId) (h : Handle) : SysWorld :=
  match s with
  | .stdin => { w with stdinH := h }
  | .stdout => { w with stdoutH := h }
  | .stderr => { w with stderrH := h }

/-- The tmpfile object a `SysCapture` installs as the process stream:
`DontReadFromInput` for stdin, a fresh in-memory `CaptureIO` text buffer
otherwise, or (when nested inside an `FDCapture`) the `EncodedFile` shared
with that capture. -/
inductive SysFile where
  | dontRead
  | capio (buf : Text)
  | encodedShared (s : StreamId)
deriving Repr, DecidableEq

/-- The handle identity of a `SysCapture`'s tmpfile, for stream `name`. -/
def SysFile.handle (sf : SysFile) (name : StreamId) : Handle :=
  match sf with
  | .dontRead => .dontRead
  | .capio _ => .capioH name
  | .encodedShared s => .encodedH s

/-- The in-memory text buffer append (the `write` of the `CaptureIO` class). -/
def captureio_write (buf : Text) (data : Text) : Text := buf ++ data

/-- `DontReadFromInput.read`: unconditionally raises
`IOError("reading from stdin while output is captured")`. -/
def DontReadFromInput.read : Except PyErr Text :=
  .error (.ioError "reading from stdin while output is captured")

/-- `DontReadFromInput.readline` is the same method object as `read`. -/
def DontReadFromInput.readline : Except PyErr Text := DontReadFromInput.read

/-- `DontReadFromInput.fileno` raises `UnsupportedOperation`. -/
def DontReadFromInput.fileno : Except PyErr Nat :=
  .error (.unsupportedOperation "redirected stdin is pseudofile, has no fileno()")

/-- Reading from the process-wide stdin handle: the real stream yields the
terminal's pending input; the `DontReadFromInput` pseudofile raises; a text
buffer installed as stdin yields nothing.  (Only `real` and `dontRead` are
reachable as stdin handles.) -/
def SysWorld.readStdin (w : SysWorld) (realInput : Text) : Except PyErr Text :=
  match w.stdinH with
  | .real _ => .ok realInput
  | .dontRead => DontReadFromInput.read
  | .capioH _ => .ok []
  | .encodedH _ => .ok []

/-! ## `SysCapture`: process-stream-level capture

Mirrors `class SysCapture` from `capture.py`:
`__init__` records the current `sys.<name>` handle as `_old` and picks its
tmpfile (`DontReadFromInput` for stdin, a `CaptureIO` otherwise, or a caller
supplied file); `start` installs the tmpfile as `sys.<name>`; `done` restores
`_old` and deletes it; `suspend`/`resume` swap the handle without touching
the buffer; `snap` reads and clears the `CaptureIO` buffer. -/

structure SysCapture where
  name : StreamId
  old : Option Handle
  tmpfile : SysFile
deriving Repr, DecidableEq

/-- `SysCapture.__init__` once the stream name is known (the `patchsysdict`
lookup has succeeded). -/
def SysCapture.initNamed (w : SysWorld) (name : StreamId) (tmp : Option SysFile) : SysCapture :=
  { name := name
    old := some (w.get name)
    tmpfile := tmp.getD (if name = .stdin then .dontRead else .capio []) }

/-- `SysCapture.__init__(fd, tmpfile)`: `patchsysdict[fd]` raises `KeyError`
for a descriptor that is not 0, 1 or 2. -/
def SysCapture.init (w : SysWorld) (fd : Nat) (tmp : Option SysFile) :
    Except PyErr SysCapture :=
  match patchsysdict fd with
  | none => .error .keyError
  | some name => .ok (SysCapture.initNamed w name tmp)

/-- `SysCapture.start`: `setattr(sys, self.name, self.tmpfile)`. -/
def SysCapture.start (w : SysWorld) (c : SysCapture) : SysWorld × SysCapture :=
  (w.set c.name (c.tmpfile.handle c.name), c)

/-- `SysCapture.snap`: `res = f.getvalue(); f.truncate(0); f.seek(0); return res`.
Only a `CaptureIO` tmpfile has `getvalue`; on the other tmpfiles the attribute
access raises. -/
def SysCapture.snap (c : SysCapture) : Except PyErr (Text × SysCapture) :=
  match c.tmpfile with
  | .capio buf => .ok (buf, { c with tmpfile := .capio [] })
  | _ => .error .attributeError

/-- `SysCapture.done`: restore `sys.<name>` to `_old`, `del self._old`,
close the tmpfile.  A second call finds `_old` deleted and raises. -/
def SysCapture.done (w : SysWorld) (c : SysCapture) :
    Except PyErr (SysWorld × SysCapture) :=
  match c.old with
  | none => .error .attributeError
  | some h => .ok (w.set c.name h, { c with old := none })

/-- `SysCapture.suspend`: `setattr(sys, self.name, self._old)`. -/
def SysCapture.suspend (w : SysWorld) (c : SysCapture) :
    Except PyErr (SysWorld × SysCapture) :=
  match c.old with
  | none => .error .attributeError
  | some h => .ok (w.set c.name h, c)

/-- `SysCapture.resume`: `setattr(sys, self.name, self.tmpfile)`. -/
def SysCapture.resume (w : SysWorld) (c : SysCapture) : SysWorld × SysCapture :=
  (w.set c.name (c.tmpfile.handle c.name), c)

/-- A write made to the process stream while this capture is started: it
lands in the `CaptureIO` buffer the handle points at. -/
def SysCapture.writeToBuf (c : SysCapture) (data : Text) : SysCapture :=
  match c.tmpfile with
  | .capio buf => { c with tmpfile := .capio (captureio_write buf data) }
  | _ => c

/-! ## `FDCapture`: descriptor-level capture

Mirrors `class FDCapture`.  `__init__` tries `os.dup(targetfd)`; on `OSError`
it replaces `start` and `done` by no-op lambdas (the *degraded* state).
Otherwise it builds the tmpfile — `open(os.devnull, "r")` for stdin (no
declared encoding), a `TemporaryFile` dup'd into an `EncodedFile` otherwise —
and a nested `SysCapture` for fds 0–2 (`NoCapture`, modelled as `none`,
beyond). -/

/-- The attribute state of an `FDCapture`: degraded (dup failed, `start` and
`done` are no-op lambdas and the other attributes were never set), or active
with its saved descriptor (`none` once `done` has popped it), tmpfile,
tmpfile fd and nested sys-level capture. -/
inductive FDCapInner where
  | degraded
  | active (targetfd_save : Option Nat) (tmpfile : FDFile) (tmpfile_fd : Nat)
      (syscapture : Option SysCapture)
deriving Repr, DecidableEq

structure FDCapture where
  targetfd : Nat
  inner : FDCapInner
deriving Repr, DecidableEq

/-- `FDCapture.__init__(targetfd)` (with the default `tmpfile=None`). -/
def FDCapture.init (os : OSState) (w : SysWorld) (targetfd : Nat) :
    FDCapture × OSState :=
  match os.dup targetfd with
  | .error _ =>
    -- OSError: capture of this fd is silently skipped
    ({ targetfd := targetfd, inner := .degraded }, os)
  | .ok (save, os1) =>
    if targetfd = 0 then
      -- tmpfile = open(os.devnull, "r"); syscapture = SysCapture(targetfd)
      let (nullfd, os2) := os1.openNew
      let sc := SysCapture.initNamed w .stdin none
      ({ targetfd := targetfd
         inner := .active (some save) { content := [], pos := 0, enc := false } nullfd (some sc) },
       os2)
    else
      -- tmpfile = safe_text_dupfile(TemporaryFile(), "wb+") : an EncodedFile
      let (tfd, os2) := os1.openNew
      match patchsysdict targetfd with
      | some name =>
        let sc := SysCapture.initNamed w name (some (.encodedShared name))
        ({ targetfd := targetfd
           inner := .active (some save) { content := [], pos := 0, enc := true } tfd (some sc) },
         os2)
      | none =>
        -- syscapture = NoCapture()
        ({ targetfd := targetfd
           inner := .active (some save) { content := [], pos := 0, enc := true } tfd none },
         os2)

/-- `FDCapture.start`: `os.fstat(self.targetfd_save)` (an `AttributeError` or
`OSError` becomes `ValueError("saved filedescriptor not valid anymore")`),
then `os.dup2(self.tmpfile_fd, self.targetfd)` and `self.syscapture.start()`. -/
def FDCapture.start (os : OSState) (w : SysWorld) (c : FDCapture) :
    Except PyErr (OSState × SysWorld × FDCapture) :=
  match c.inner with
  | .degraded => .ok (os, w, c)
  | .active save _tmp tfd sc =>
    match save with
    | none => .error (.valueError "saved filedescriptor not valid anymore")
    | some fdsave =>
      if os.fstatOk fdsave then
        match os.dup2 tfd c.targetfd with
        | .error e => .error e
        | .ok os1 =>
          match sc with
          | some s => .ok (os1, (s.start w).1, c)
          | none => .ok (os1, w, c)
      else
        .error (.valueError "saved filedescriptor not valid anymore")

/-- `FDCapture.snap`: seek to 0, read everything; if nonempty, decode with
replacement when the file has a declared encoding, truncate to empty and
seek to 0, and return the text; otherwise return the empty string. -/
def FDCapture.snap (c : FDCapture) : Except PyErr (Text × FDCapture) :=
  match c.inner with
  | .degraded => .error .attributeError
  | .active save f tfd sc =>
    let f1 : FDFile := { f with pos := 0 }
    let res := f1.content.drop f1.pos
    let f2 : FDFile := { f1 with pos := f1.content.length }
    if res ≠ [] then
      let txt := if f1.enc then utf8DecodeReplace res else res
      let f3 : FDFile := { content := [], pos := 0, enc := f1.enc }
      .ok (txt, { c with inner := .active save f3 tfd sc })
    else
      .ok ([], { c with inner := .active save f2 tfd sc })

/-- `FDCapture.done`: pop `targetfd_save` (a second call raises `KeyError`),
`os.dup2(saved, targetfd)`, `os.close(saved)`, `self.syscapture.done()`,
close the tmpfile. -/
def FDCapture.done (os : OSState) (w : SysWorld) (c : FDCapture) :
    Except PyErr (OSState × SysWorld × FDCapture) :=
  match c.inner with
  | .degraded => .ok (os, w, c)
  | .active save f tfd sc =>
    match save with
    | none => .error .keyError
    | some fdsave =>
      match os.dup2 fdsave c.targetfd with
      | .error e => .error e
      | .ok os1 =>
        let os2 := os1.close fdsave
        match sc with
        | some s =>
          match s.done w with
          | .error e => .error e
          | .ok (w1, s1) =>
            .ok (os2, w1, { c with inner := .active none f tfd (some s1) })
        | none => .ok (os2, w, { c with inner := .active none f tfd none })

/-- `FDCapture.suspend`: `self.syscapture.suspend()`, then
`os.dup2(self.targetfd_save, self.targetfd)`. -/
def FDCapture.suspend (os : OSState) (w : SysWorld) (c : FDCapture) :
    Except PyErr (OSState × SysWorld × FDCapture) :=
  match c.inner with
  | .degraded => .error .attributeError
  | .active save _f _tfd sc =>
    let wRes : Except PyErr SysWorld :=
      match sc with
      | some s =>
        match s.suspend w with
        | .error e => .error e
        | .ok (w1, _) => .ok w1
      | none => .ok w
    match wRes with
    | .error e => .error e
    | .ok w1 =>
      match save with
      | none => .error .attributeError
      | some fdsave =>
        match os.dup2 fdsave c.targetfd with
        | .error e => .error e
        | .ok os1 => .ok (os1, w1, c)

/-- `FDCapture.resume`: `self.syscapture.resume()`, then
`os.dup2(self.tmpfile_fd, self.targetfd)`. -/
def FDCapture.resume (os : OSState) (w : SysWorld) (c : FDCapture) :
    Except PyErr (OSState × SysWorld × FDCapture) :=
  match c.inner with
  | .degraded => .error .attributeError
  | .active _save _f tfd sc =>
    let w1 :=
      match sc with
      | some s => (s.resume w).1
      | none => w
    match os.dup2 tfd c.targetfd with
    | .error e => .error e
    | .ok os1 => .ok (os1, w1, c)

/-! ## `MultiCapture`

Mirrors `class MultiCapture`.  It owns up to three stream captures
(constructed per the `out`/`err`/`in_` flags).  At this level each owned
capture is represented by its drained-text buffer (what that stream's
`snap()` would return), and every lifecycle call additionally records the
per-stream operations it performs, in order, as a trace — the fan-out order
is exactly the order of the method calls in the source. -/

/-- A per-stream operation performed by a `MultiCapture` lifecycle call. -/
inductive CapAction where
  | start
  | suspend
  | resume
  | done
  | writeorg (data : Text)
deriving Repr, DecidableEq

/-- A trace event: which owned stream capture was operated on, and how. -/
abbrev Event := StreamId × CapAction

structure MultiCapture where
  in_ : Option Text
  out : Option Text
  err : Option Text
  /-- `hasattr(self, "_in_suspended")`. -/
  in_suspended : Bool
  /-- `hasattr(self, "_reset")`. -/
  reset : Bool
deriving Repr, DecidableEq

/-- `MultiCapture.__init__(out, err, in_, Capture)`: create the requested
stream captures (each starting with an empty buffer). -/
def MultiCapture.init (out err in_ : Bool) : MultiCapture :=
  { in_ := if in_ then some [] else none
    out := if out then some [] else none
    err := if err then some [] else none
    in_suspended := false
    reset := false }

/-- `MultiCapture.start_capturing`: `in_.start(); out.start(); err.start()`,
each guarded by ownership. -/
def MultiCapture.start_capturing (m : MultiCapture) : MultiCapture × List Event :=
  (m,
    (if m.in_.isSome then [(StreamId.stdin, CapAction.start)] else []) ++
    (if m.out.isSome then [(StreamId.stdout, CapAction.start)] else []) ++
    (if m.err.isSome then [(StreamId.stderr, CapAction.start)] else []))

/-- `MultiCapture.suspend_capturing(in_)`: `out.suspend(); err.suspend()`;
then, only if `in_` was requested *and* stdin is owned, `in_.suspend()` and
set `_in_suspended`. -/
def MultiCapture.suspend_capturing (m : MultiCapture) (in_ : Bool) :
    MultiCapture × List Event :=
  let tr :=
    (if m.out.isSome then [(StreamId.stdout, CapAction.suspend)] else []) ++
    (if m.err.isSome then [(StreamId.stderr, CapAction.suspend)] else [])
  if in_ ∧ m.in_.isSome then
    ({ m with in_suspended := true }, tr ++ [(StreamId.stdin, CapAction.suspend)])
  else
    (m, tr)

/-- `MultiCapture.resume_capturing`: `out.resume(); err.resume()`; then, if
`_in_suspended` is set, `in_.resume()` and clear the flag. -/
def MultiCapture.resume_capturing (m : MultiCapture) : MultiCapture × List Event :=
  let tr :=
    (if m.out.isSome then [(StreamId.stdout, CapAction.resume)] else []) ++
    (if m.err.isSome then [(StreamId.stderr, CapAction.resume)] else [])
  if m.in_suspended then
    ({ m with in_suspended := false }, tr ++ [(StreamId.stdin, CapAction.resume)])
  else
    (m, tr)

/-- `MultiCapture.stop_capturing`: raise
`ValueError("was already stopped")` on a second call, else set `_reset` and
`out.done(); err.done(); in_.done()`. -/
def MultiCapture.stop_capturing (m : MultiCapture) :
    Except PyErr (MultiCapture × List Event) :=
  if m.reset then
    .error (.valueError "was already stopped")
  else
    .ok ({ m with reset := true },
      (if m.out.isSome then [(StreamId.stdout, CapAction.done)] else []) ++
      (if m.err.isSome then [(StreamId.stderr, CapAction.done)] else []) ++
      (if m.in_.isSome then [(StreamId.stdin, CapAction.done)] else []))

/-- `MultiCapture.readouterr`: `(out.snap() if owned else "", err.snap() if
owned else "")` — each `snap` drains that stream's buffer. -/
def MultiCapture.readouterr (m : MultiCapture) : (Text × Text) × MultiCapture :=
  ((m.out.getD [], m.err.getD []),
   { m with out := m.out.map (fun _ => []), err := m.err.map (fun _ => []) })

/-- `MultiCapture.pop_outerr_to_orig`: drain the snapshot and re-emit each
nonempty drained text to the real stream via that capture's `writeorg`. -/
def MultiCapture.pop_outerr_to_orig (m : MultiCapture) :
    (Text × Text) × MultiCapture × List Event :=
  let r := m.readouterr
  let o := r.1.1
  let e := r.1.2
  ((o, e), r.2,
    (if o ≠ [] then [(StreamId.stdout, CapAction.writeorg o)] else []) ++
    (if e ≠ [] then [(StreamId.stderr, CapAction.writeorg e)] else []))

/-! ## `CaptureManager` (the top-level error path) -/

/-- The capture manager's state: the optional session-level `MultiCapture`
(`self._capturing`, popped by `reset_capturings`). -/
structure CaptureManager where
  capturing : Option MultiCapture
deriving Repr, DecidableEq

/-- `CaptureManager.reset_capturings`: pop `_capturing`; if present, drain
and re-emit buffered output (`pop_outerr_to_orig`) and stop the capture. -/
def CaptureManager.reset_capturings (mgr : CaptureManager) :
    Except PyErr (CaptureManager × List Event) :=
  match mgr.capturing with
  | none => .ok ({ capturing := none }, [])
  | some cap =>
    let r := cap.pop_outerr_to_orig
    match r.2.1.stop_capturing with
    | .error e => .error e
    | .ok (_, tr2) => .ok ({ capturing := none }, r.2.2 ++ tr2)

/-- `CaptureManager.pytest_keyboard_interrupt`: `self.reset_capturings()`. -/
def CaptureManager.pytest_keyboard_interrupt (mgr : CaptureManager) :
    Except PyErr (CaptureManager × List Event) :=
  mgr.reset_capturings

/-- `CaptureManager.pytest_internalerror`: `self.reset_capturings()`. -/
def CaptureManager.pytest_internalerror (mgr : CaptureManager) :
    Except PyErr (CaptureManager × List Event) :=
  mgr.reset_capturings

/-! ## The `capsys` / `capfd` fixtures -/

/-- `error_capsysfderror = "cannot use capsys and capfd at the same time"`. -/
def error_capsysfderror : String := "cannot use capsys and capfd at the same time"

/-- Which capture class a `CaptureFixture` was created with. -/
inductive CaptureClass where
  | sysCaptureClass
  | fdCaptureClass
deriving Repr, DecidableEq

/-- The outcome of evaluating a fixture function during test setup. -/
inductive FixtureResult where
  | fixture (cls : CaptureClass)
  | usageError (msg : String)
  | skipped (msg : String)
deriving Repr, DecidableEq

/-- The `capsys` fixture body: error out if `capfd` is also requested for
this test, else hand out a `CaptureFixture(SysCapture)`. -/
def capsys (fixturenames : List String) : FixtureResult :=
  if "capfd" ∈ fixturenames then
    .usageError error_capsysfderror
  else
    .fixture .sysCaptureClass

/-- The `capfd` fixture body: error out if `capsys` is also requested,
skip if the platform has no `os.dup`, else hand out a
`CaptureFixture(FDCapture)`. -/
def capfd (fixturenames : List String) (has_os_dup : Bool) : FixtureResult :=
  if "capsys" ∈ fixturenames then
    .usageError error_capsysfderror
  else if ¬ has_os_dup then
    .skipped "capfd funcarg needs os.dup"
  else
    .fixture .fdCaptureClass

/-! ## Theorems -/

/-- Sequential writes to a file positioned at its end append: folding
`FDFile.write` over a write sequence concatenates it onto the content. -/
theorem FDFile.foldl_write_from_end (W : List Bytes) (c : Bytes) (e : Bool) :
    W.foldl FDFile.write { content := c, pos := c.length, enc := e } =
      { content := c ++ W.flatten, pos := (c ++ W.flatten).length, enc := e } := by
  induction W generalizing c with
  | nil => simp
  | cons w ws ih =>
    have hw : FDFile.write { content := c, pos := c.length, enc := e } w =
        { content := c ++ w, pos := (c ++ w).length, enc := e } := by
      simp [FDFile.write, List.drop_eq_nil_of_le]
    simp only [List.foldl_cons, hw, ih, List.flatten_cons, List.append_assoc]

/-- Folding `captureio_write` over a write sequence concatenates it onto
the buffer. -/
theorem captureio_foldl_write (V : List Text) (acc : Text) :
    V.foldl captureio_write acc = acc ++ V.flatten := by
  induction V generalizing acc with
  | nil => simp
  | cons v vs ih => simp [captureio_write, ih, List.append_assoc]

/-- C1: for any sequence of writes `W` made to a captured stream between
start/resume and the next snap, `snap()` returns exactly the concatenation of
`W` decoded as text (with replacement of undecodable bytes, never raising —
the result is always `.ok`), truncates the buffer to empty, and an
immediately subsequent `snap()` with no intervening writes returns the empty
string.  Both strategies: the descriptor-level `FDCapture.snap` on the byte
buffer, and the process-stream-level `SysCapture.snap` on the text buffer. -/
theorem snap_returns_writes_then_clears (W : List Bytes) (V : List Text) :
    (FDCapture.snap
        { targetfd := 1
          inner := .active (some 3)
            (W.foldl FDFile.write { content := [], pos := 0, enc := true }) 4 none } =
      .ok (utf8DecodeReplace W.flatten,
        { targetfd := 1
          inner := .active (some 3) { content := [], pos := 0, enc := true } 4 none }) ∧
     FDCapture.snap
        { targetfd := 1
          inner := .active (some 3) { content := [], pos := 0, enc := true } 4 none } =
      .ok ([],
        { targetfd := 1
          inner := .active (some 3) { content := [], pos := 0, enc := true } 4 none })) ∧
    (SysCapture.snap
        { name := .stdout, old := some (.real .stdout)
          tmpfile := .capio (V.foldl captureio_write []) } =
      .ok (V.flatten,
        { name := .stdout, old := some (.real .stdout), tmpfile := .capio [] }) ∧
     SysCapture.snap
        { name := .stdout, old := some (.real .stdout), tmpfile := .capio [] } =
      .ok ([],
        { name := .stdout, old := some (.real .stdout), tmpfile := .capio [] })) := by
  have hbuf := FDFile.foldl_write_from_end W [] true
  simp only [List.nil_append, List.length_nil] at hbuf
  refine ⟨⟨?_, ?_⟩, ⟨?_, ?_⟩⟩
  · rw [hbuf]
    by_cases h : W.flatten = []
    · simp [FDCapture.snap, h, utf8DecodeReplace, utf8DecodeGo]
    · simp [FDCapture.snap, h]
  · simp [FDCapture.snap]
  · rw [captureio_foldl_write]
    simp [SysCapture.snap]
  · simp [SysCapture.snap]

/-- C2 counterexample: `stop_capturing` on a full capture (stdin, stdout and
stderr all owned) fans out `done` in the order stdout, stderr, stdin — not in
the order stdin, stdout, stderr that the claim states for every lifecycle
operation. -/
theorem stop_capturing_order_counterexample :
    MultiCapture.stop_capturing (MultiCapture.init true true true) =
      .ok ({ in_ := some [], out := some [], err := some [], in_suspended := false,
             reset := true },
        [(StreamId.stdout, CapAction.done), (StreamId.stderr, CapAction.done),
         (StreamId.stdin, CapAction.done)]) ∧
    [(StreamId.stdout, CapAction.done), (StreamId.stderr, CapAction.done),
     (StreamId.stdin, CapAction.done)] ≠
      [(StreamId.stdin, CapAction.done), (StreamId.stdout, CapAction.done),
       (StreamId.stderr, CapAction.done)] := by
  constructor
  · rfl
  · decide

/-- C2 (amended): `start_capturing` fans out to the owned stream captures in
the order stdin, stdout, stderr; `suspend_capturing`, `resume_capturing` and
`stop_capturing` fan out in the order stdout, stderr, stdin — with stdin
included in a suspend only when requested (`in_=True`) and in a resume only
when a matching suspend is pending. -/
theorem lifecycle_fanout_order (m : MultiCapture) (b : Bool)
    (hr : m.reset = false) :
    (m.start_capturing).2 =
      (if m.in_.isSome then [(StreamId.stdin, CapAction.start)] else []) ++
      (if m.out.isSome then [(StreamId.stdout, CapAction.start)] else []) ++
      (if m.err.isSome then [(StreamId.stderr, CapAction.start)] else []) ∧
    (m.suspend_capturing b).2 =
      (if m.out.isSome then [(StreamId.stdout, CapAction.suspend)] else []) ++
      (if m.err.isSome then [(StreamId.stderr, CapAction.suspend)] else []) ++
      (if b ∧ m.in_.isSome then [(StreamId.stdin, CapAction.suspend)] else []) ∧
    (m.resume_capturing).2 =
      (if m.out.isSome then [(StreamId.stdout, CapAction.resume)] else []) ++
      (if m.err.isSome then [(StreamId.stderr, CapAction.resume)] else []) ++
      (if m.in_suspended then [(StreamId.stdin, CapAction.resume)] else []) ∧
    m.stop_capturing =
      .ok ({ m with reset := true },
        (if m.out.isSome then [(StreamId.stdout, CapAction.done)] else []) ++
        (if m.err.isSome then [(StreamId.stderr, CapAction.done)] else []) ++
        (if m.in_.isSome then [(StreamId.stdin, CapAction.done)] else [])) := by
  refine ⟨rfl, ?_, ?_, ?_⟩
  · unfold MultiCapture.suspend_capturing
    by_cases h : b ∧ m.in_.isSome <;> simp [h, List.append_assoc]
  · unfold MultiCapture.resume_capturing
    by_cases h : m.in_suspended <;> simp [h, List.append_assoc]
  · simp [MultiCapture.stop_capturing, hr]

/-- Witness for `lifecycle_fanout_order` at a concrete full capture. -/
theorem lifecycle_fanout_order_witness :
    ((MultiCapture.init true true true).start_capturing).2 =
      [(StreamId.stdin, CapAction.start), (StreamId.stdout, CapAction.start),
       (StreamId.stderr, CapAction.start)] := by
  have h := (lifecycle_fanout_order (MultiCapture.init true true true) true rfl).1
  simpa using h

/-- C10 counterexample: with stdin owned, after `suspend_capturing(in_=True)`
followed by `suspend_capturing(in_=False)` (whose own fan-out touches only
stdout and stderr), `resume_capturing` still resumes stdin — even though the
most recent suspend was called with `in_=False`. -/
theorem resume_stdin_after_plain_suspend_counterexample :
    ((((MultiCapture.init true true true).suspend_capturing
        true).1.suspend_capturing false).2 =
      [(StreamId.stdout, CapAction.suspend), (StreamId.stderr, CapAction.suspend)]) ∧
    ((((MultiCapture.init true true true).suspend_capturing
        true).1.suspend_capturing false).1.resume_capturing).2 =
      [(StreamId.stdout, CapAction.resume), (StreamId.stderr, CapAction.resume),
       (StreamId.stdin, CapAction.resume)] := by
  constructor
  · rfl
  · rfl

/-- C10 (amended): `resume_capturing` resumes the stdin capture exactly when
the `_in_suspended` flag is set, i.e. when some `suspend_capturing(in_=True)`
with an owned stdin capture has happened since the last resume; the flag is
cleared by resume, left untouched by `suspend_capturing(in_=False)` (which
never suspends stdin), and set by `suspend_capturing(in_=True)` whenever
stdin is owned. -/
theorem resume_stdin_iff_in_suspended (m : MultiCapture) :
    (((StreamId.stdin, CapAction.resume) ∈ (m.resume_capturing).2) ↔
      m.in_suspended = true) ∧
    (m.resume_capturing).1.in_suspended = false ∧
    (m.suspend_capturing false).1.in_suspended = m.in_suspended ∧
    ((StreamId.stdin, CapAction.suspend) ∉ (m.suspend_capturing false).2) ∧
    (m.suspend_capturing true).1.in_suspended = (m.in_.isSome || m.in_suspended) := by
  refine ⟨?_, ?_, ?_, ?_, ?_⟩
  · unfold MultiCapture.resume_capturing
    by_cases h : m.in_suspended <;>
      by_cases ho : m.out.isSome <;> by_cases he : m.err.isSome <;>
        simp [h, ho, he]
  · unfold MultiCapture.resume_capturing
    by_cases h : m.in_suspended <;> simp [h]
  · unfold MultiCapture.suspend_capturing
    simp
  · unfold MultiCapture.suspend_capturing
    by_cases ho : m.out.isSome <;> by_cases he : m.err.isSome <;>
      simp [ho, he]
  · unfold MultiCapture.suspend_capturing
    by_cases hi : m.in_.isSome <;> simp [hi]

/-- C4: stopping is terminal.  A successful `MultiCapture.stop_capturing`
leaves a state on which a second call raises
`ValueError("was already stopped")`, and a successful `FDCapture.done` on an
active (non-degraded) capture pops the saved descriptor, so a second call
raises `KeyError` — neither is a silent no-op. -/
theorem stop_and_done_are_terminal
    (m m' : MultiCapture) (tr : List Event)
    (os os' : OSState) (w w' : SysWorld) (c c' : FDCapture)
    (save : Option Nat) (f : FDFile) (tfd : Nat) (sc : Option SysCapture)
    (hstop : m.stop_capturing = .ok (m', tr))
    (hact : c.inner = .active save f tfd sc)
    (hdone : FDCapture.done os w c = .ok (os', w', c')) :
    m'.stop_capturing = .error (.valueError "was already stopped") ∧
    FDCapture.done os' w' c' = .error .keyError := by
  constructor
  · have hm' : m'.reset = true := by
      unfold MultiCapture.stop_capturing at hstop
      split at hstop
      · exact absurd hstop (by simp)
      · simp only [Except.ok.injEq, Prod.mk.injEq] at hstop
        rw [← hstop.1]
    simp [MultiCapture.stop_capturing, hm']
  · obtain ⟨ctfd, cinner⟩ := c
    simp only at hact
    subst hact
    cases save with
    | none => simp [FDCapture.done] at hdone
    | some fdsave =>
      simp only [FDCapture.done] at hdone
      cases hdup : OSState.dup2 os fdsave ctfd with
      | error e => simp [hdup] at hdone
      | ok os1 =>
        simp only [hdup] at hdone
        cases sc with
        | none =>
          simp only [Except.ok.injEq, Prod.mk.injEq] at hdone
          obtain ⟨-, -, hc⟩ := hdone
          rw [← hc]
          simp [FDCapture.done]
        | some s =>
          cases hsd : SysCapture.done w s with
          | error e => simp [hsd] at hdone
          | ok ws1 =>
            obtain ⟨w1, s1⟩ := ws1
            simp only [hsd, Except.ok.injEq, Prod.mk.injEq] at hdone
            obtain ⟨-, -, hc⟩ := hdone
            rw [← hc]
            simp [FDCapture.done]

/-- Witness for `stop_and_done_are_terminal`: a concrete capture that is
stopped once, then stopped again; a concrete `FDCapture` whose `done` ran
once, then runs again. -/
theorem stop_and_done_are_terminal_witness :
    MultiCapture.stop_capturing
        { in_ := some [], out := some [], err := some [], in_suspended := false,
          reset := true } =
      .error (.valueError "was already stopped") ∧
    FDCapture.done { fdTable := [(1, 11), (7, 12)] }
        { stdinH := .real .stdin, stdoutH := .real .stdout, stderrH := .real .stderr }
        { targetfd := 1, inner := .active none { content := [], pos := 0, enc := true } 7 none } =
      .error .keyError :=
  stop_and_done_are_terminal
    (MultiCapture.init true true true)
    { in_ := some [], out := some [], err := some [], in_suspended := false, reset := true }
    [(StreamId.stdout, CapAction.done), (StreamId.stderr, CapAction.done),
     (StreamId.stdin, CapAction.done)]
    { fdTable := [(1, 10), (5, 11), (7, 12)] }
    { fdTable := [(1, 11), (7, 12)] }
    { stdinH := .real .stdin, stdoutH := .real .stdout, stderrH := .real .stderr }
    { stdinH := .real .stdin, stdoutH := .real .stdout, stderrH := .real .stderr }
    { targetfd := 1, inner := .active (some 5) { content := [], pos := 0, enc := true } 7 none }
    { targetfd := 1, inner := .active none { content := [], pos := 0, enc := true } 7 none }
    (some 5) { content := [], pos := 0, enc := true } 7 none
    (by rfl) (by rfl) (by rfl)

/-- C3: `FDCapture.start` on an active capture requires the saved original
descriptor to still be stat-able.  If the saved descriptor is missing or no
longer valid, `start` raises
`ValueError("saved filedescriptor not valid anymore")` (the error is
returned, not swallowed); conversely a successful `start` implies the saved
descriptor was present and valid. -/
theorem fd_start_requires_valid_saved_descriptor
    (os : OSState) (w : SysWorld) (c : FDCapture)
    (save : Option Nat) (f : FDFile) (tfd : Nat) (sc : Option SysCapture)
    (hact : c.inner = .active save f tfd sc) :
    ((∀ fd, save = some fd → os.fstatOk fd = false) →
      FDCapture.start os w c =
        .error (.valueError "saved filedescriptor not valid anymore")) ∧
    (∀ r, FDCapture.start os w c = .ok r →
      ∃ fd, save = some fd ∧ os.fstatOk fd = true) := by
  obtain ⟨ctfd, cinner⟩ := c
  simp only at hact
  subst hact
  constructor
  · intro hbad
    cases save with
    | none => rfl
    | some fd => simp [FDCapture.start, hbad fd rfl]
  · intro r hr
    cases save with
    | none => simp [FDCapture.start] at hr
    | some fd =>
      refine ⟨fd, rfl, ?_⟩
      by_cases h : OSState.fstatOk os fd
      · exact h
      · simp [FDCapture.start, h] at hr

/-- Witness for `fd_start_requires_valid_saved_descriptor`: starting a
capture whose saved descriptor 5 is no longer open raises the setup error. -/
theorem fd_start_requires_valid_saved_descriptor_witness :
    FDCapture.start { fdTable := [(1, 10), (7, 12)] }
        { stdinH := .real .stdin, stdoutH := .real .stdout, stderrH := .real .stderr }
        { targetfd := 1, inner := .active (some 5) { content := [], pos := 0, enc := true } 7 none } =
      .error (.valueError "saved filedescriptor not valid anymore") :=
  (fd_start_requires_valid_saved_descriptor
      { fdTable := [(1, 10), (7, 12)] }
      { stdinH := .real .stdin, stdoutH := .real .stdout, stderrH := .real .stderr }
      { targetfd := 1, inner := .active (some 5) { content := [], pos := 0, enc := true } 7 none }
      (some 5) { content := [], pos := 0, enc := true } 7 none rfl).1
    (fun fd hfd => by cases hfd; rfl)

/-- C5: on a keyboard interrupt or internal error, the manager immediately
resets: the buffered-but-undisplayed stdout/stderr text is drained and
re-emitted to the real streams via `writeorg`, and every owned stream capture
is stopped (`done`), releasing the capture. -/
theorem reset_on_fatal_error_drains_and_stops (o e : Text) (i : Option Text) (b : Bool) :
    CaptureManager.pytest_keyboard_interrupt
        { capturing := some { in_ := i, out := some o, err := some e,
                              in_suspended := b, reset := false } } =
      .ok ({ capturing := none },
        ((if o ≠ [] then [(StreamId.stdout, CapAction.writeorg o)] else []) ++
         (if e ≠ [] then [(StreamId.stderr, CapAction.writeorg e)] else [])) ++
        ([(StreamId.stdout, CapAction.done)] ++ [(StreamId.stderr, CapAction.done)] ++
         (if i.isSome then [(StreamId.stdin, CapAction.done)] else []))) ∧
    CaptureManager.pytest_internalerror
        { capturing := some { in_ := i, out := some o, err := some e,
                              in_suspended := b, reset := false } } =
      .ok ({ capturing := none },
        ((if o ≠ [] then [(StreamId.stdout, CapAction.writeorg o)] else []) ++
         (if e ≠ [] then [(StreamId.stderr, CapAction.writeorg e)] else [])) ++
        ([(StreamId.stdout, CapAction.done)] ++ [(StreamId.stderr, CapAction.done)] ++
         (if i.isSome then [(StreamId.stdin, CapAction.done)] else []))) := by
  constructor <;>
    simp [CaptureManager.pytest_keyboard_interrupt, CaptureManager.pytest_internalerror,
      CaptureManager.reset_capturings, MultiCapture.pop_outerr_to_orig,
      MultiCapture.readouterr, MultiCapture.stop_capturing]

/-- C6: requesting both fixture capture kinds for the same test is a usage
error raised during fixture setup (before the test body): each of `capsys`
and `capfd` errors out when the other is among the requested fixture names,
and neither silently hands out a capture fixture of either kind. -/
theorem capsys_capfd_mutual_exclusion (fixturenames : List String) (has_os_dup : Bool)
    (hsys : "capsys" ∈ fixturenames) (hfd : "capfd" ∈ fixturenames) :
    capsys fixturenames = .usageError error_capsysfderror ∧
    capfd fixturenames has_os_dup = .usageError error_capsysfderror ∧
    (∀ cls, capsys fixturenames ≠ .fixture cls) ∧
    (∀ cls, capfd fixturenames has_os_dup ≠ .fixture cls) := by
  refine ⟨?_, ?_, ?_, ?_⟩ <;> simp [capsys, capfd, hsys, hfd]

/-- Witness for `capsys_capfd_mutual_exclusion` at the concrete fixture-name
list requesting both kinds. -/
theorem capsys_capfd_mutual_exclusion_witness :
    capsys ["capsys", "capfd"] = .usageError error_capsysfderror ∧
    capfd ["capsys", "capfd"] true = .usageError error_capsysfderror :=
  ⟨(capsys_capfd_mutual_exclusion ["capsys", "capfd"] true (by simp) (by simp)).1,
   (capsys_capfd_mutual_exclusion ["capsys", "capfd"] true (by simp) (by simp)).2.1⟩

/-- C7: after a (non-degraded) descriptor-level stdin capture is constructed
and started, the process-wide stdin handle is the `DontReadFromInput`
pseudofile, so every read from it raises the read-blocked `IOError`
immediately instead of blocking. -/
theorem fd_stdin_capture_blocks_reads
    (os osI os2 : OSState) (w w1 : SysWorld) (c c2 : FDCapture)
    (hinit : FDCapture.init os w 0 = (c, osI))
    (hnd : c.inner ≠ .degraded)
    (hstart : FDCapture.start osI w c = .ok (os2, w1, c2)) :
    w1.stdinH = .dontRead ∧
    (∀ input, w1.readStdin input =
      .error (.ioError "reading from stdin while output is captured")) ∧
    DontReadFromInput.read =
      .error (.ioError "reading from stdin while output is captured") := by
  cases hdup : OSState.dup os 0 with
  | error e =>
    simp only [FDCapture.init, hdup, Prod.mk.injEq] at hinit
    obtain ⟨hc, -⟩ := hinit
    exact absurd (by rw [← hc]) hnd
  | ok p =>
    obtain ⟨save, osA⟩ := p
    simp only [FDCapture.init, hdup, Prod.mk.injEq, if_true, reduceIte] at hinit
    obtain ⟨hc, -⟩ := hinit
    subst hc
    simp only [FDCapture.start] at hstart
    split at hstart
    · split at hstart
      · exact absurd hstart (by simp)
      · simp only [Except.ok.injEq, Prod.mk.injEq] at hstart
        obtain ⟨-, hw1, -⟩ := hstart
        rw [← hw1]
        exact ⟨rfl, fun input => rfl, rfl⟩
    · exact absurd hstart (by simp)

/-- Witness for `fd_stdin_capture_blocks_reads`: a concrete fd table and
stream world on which the stdin capture is built and started, and a concrete
read attempt. -/
theorem fd_stdin_capture_blocks_reads_witness :
    ({ stdinH := .dontRead, stdoutH := .real .stdout,
       stderrH := .real .stderr } : SysWorld).stdinH = .dontRead ∧
    SysWorld.readStdin
        { stdinH := .dontRead, stdoutH := .real .stdout, stderrH := .real .stderr }
        [104, 105] =
      .error (.ioError "reading from stdin while output is captured") := by
  have h := fd_stdin_capture_blocks_reads
    { fdTable := [(0, 100), (1, 101), (2, 102)] }
    { fdTable := [(4, 103), (3, 100), (0, 100), (1, 101), (2, 102)] }
    { fdTable := [(0, 103), (4, 103), (3, 100), (1, 101), (2, 102)] }
    { stdinH := .real .stdin, stdoutH := .real .stdout, stderrH := .real .stderr }
    { stdinH := .dontRead, stdoutH := .real .stdout, stderrH := .real .stderr }
    { targetfd := 0
      inner := .active (some 3) { content := [], pos := 0, enc := false } 4
        (some { name := .stdin, old := some (.real .stdin), tmpfile := .dontRead }) }
    { targetfd := 0
      inner := .active (some 3) { content := [], pos := 0, enc := false } 4
        (some { name := .stdin, old := some (.real .stdin), tmpfile := .dontRead }) }
    (by rfl) (by simp) (by rfl)
  exact ⟨h.1, h.2.1 [104, 105]⟩

/-- C8: `suspend()` immediately followed by `resume()` with no writes in
between leaves the capture object — in particular its buffer content —
unchanged, for both strategies: a successful `FDCapture.suspend`/`resume`
round-trip returns the capture it was given, and a `SysCapture`
suspend/resume round-trip returns the capture it was given. -/
theorem suspend_resume_roundtrip_preserves_buffer
    (os os1 os2 : OSState) (w w1 w2 : SysWorld) (c c1 c2 : FDCapture)
    (sw sw1 : SysWorld) (sck sck1 : SysCapture)
    (h1 : FDCapture.suspend os w c = .ok (os1, w1, c1))
    (h2 : FDCapture.resume os1 w1 c1 = .ok (os2, w2, c2))
    (h3 : SysCapture.suspend sw sck = .ok (sw1, sck1)) :
    c2 = c ∧ (SysCapture.resume sw1 sck1).2 = sck := by
  have hc1 : c1 = c := by
    obtain ⟨ctfd, cinner⟩ := c
    cases cinner with
    | degraded => simp [FDCapture.suspend] at h1
    | active save f tfd sc =>
      cases sc with
      | none =>
        cases save with
        | none => simp [FDCapture.suspend] at h1
        | some fdsave =>
          simp only [FDCapture.suspend] at h1
          cases hdup2 : OSState.dup2 os fdsave ctfd with
          | error e => simp [hdup2] at h1
          | ok osX =>
            simp only [hdup2, Except.ok.injEq, Prod.mk.injEq] at h1
            exact h1.2.2.symm
      | some s =>
        cases hss : SysCapture.suspend w s with
        | error e => simp [FDCapture.suspend, hss] at h1
        | ok ws =>
          obtain ⟨wX, sX⟩ := ws
          cases save with
          | none => simp [FDCapture.suspend, hss] at h1
          | some fdsave =>
            simp only [FDCapture.suspend, hss] at h1
            cases hdup2 : OSState.dup2 os fdsave ctfd with
            | error e => simp [hdup2] at h1
            | ok osX =>
              simp only [hdup2, Except.ok.injEq, Prod.mk.injEq] at h1
              exact h1.2.2.symm
  have hc2 : c2 = c1 := by
    obtain ⟨ctfd, cinner⟩ := c1
    cases cinner with
    | degraded => simp [FDCapture.resume] at h2
    | active save f tfd sc =>
      simp only [FDCapture.resume] at h2
      cases hdup2 : OSState.dup2 os1 tfd ctfd with
      | error e => simp [hdup2] at h2
      | ok osX =>
        simp only [hdup2, Except.ok.injEq, Prod.mk.injEq] at h2
        exact h2.2.2.symm
  have hsck : sck1 = sck := by
    unfold SysCapture.suspend at h3
    split at h3
    · exact absurd h3 (by simp)
    · simp_all
  subst hsck
  exact ⟨hc2.trans hc1, rfl⟩

/-- Witness for `suspend_resume_roundtrip_preserves_buffer`: a concrete
started stdout capture (with one buffered byte) suspended and resumed. -/
theorem suspend_resume_roundtrip_preserves_buffer_witness :
    ({ targetfd := 1
       inner := .active (some 5) { content := [97], pos := 1, enc := true } 7
         (some { name := .stdout, old := some (.real .stdout),
                 tmpfile := .encodedShared .stdout }) } : FDCapture) =
      { targetfd := 1
        inner := .active (some 5) { content := [97], pos := 1, enc := true } 7
          (some { name := .stdout, old := some (.real .stdout),
                  tmpfile := .encodedShared .stdout }) } ∧
    (SysCapture.resume
        { stdinH := .real .stdin, stdoutH := .real .stdout, stderrH := .real .stderr }
        { name := .stdout, old := some (.real .stdout), tmpfile := .capio [5] }).2 =
      { name := .stdout, old := some (.real .stdout), tmpfile := .capio [5] } :=
  suspend_resume_roundtrip_preserves_buffer
    { fdTable := [(1, 10), (5, 11), (7, 12)] }
    { fdTable := [(1, 11), (5, 11), (7, 12)] }
    { fdTable := [(1, 12), (5, 11), (7, 12)] }
    { stdinH := .real .stdin, stdoutH := .real .stdout, stderrH := .real .stderr }
    { stdinH := .real .stdin, stdoutH := .real .stdout, stderrH := .real .stderr }
    { stdinH := .real .stdin, stdoutH := .encodedH .stdout, stderrH := .real .stderr }
    { targetfd := 1
      inner := .active (some 5) { content := [97], pos := 1, enc := true } 7
        (some { name := .stdout, old := some (.real .stdout),
                tmpfile := .encodedShared .stdout }) }
    { targetfd := 1
      inner := .active (some 5) { content := [97], pos := 1, enc := true } 7
        (some { name := .stdout, old := some (.real .stdout),
                tmpfile := .encodedShared .stdout }) }
    { targetfd := 1
      inner := .active (some 5) { content := [97], pos := 1, enc := true } 7
        (some { name := .stdout, old := some (.real .stdout),
                tmpfile := .encodedShared .stdout }) }
    { stdinH := .real .stdin, stdoutH := .real .stdout, stderrH := .real .stderr }
    { stdinH := .real .stdin, stdoutH := .real .stdout, stderrH := .real .stderr }
    { name := .stdout, old := some (.real .stdout), tmpfile := .capio [5] }
    { name := .stdout, old := some (.real .stdout), tmpfile := .capio [5] }
    (by rfl) (by rfl) (by rfl)

/-- C9: when `os.dup(targetfd)` fails with `OSError` during construction,
the resulting descriptor-level capture is degraded: its `start()` and
`done()` are no-ops that change nothing and never raise — capture of that
stream is silently skipped. -/
theorem fd_degraded_capture_is_passthrough
    (os : OSState) (w : SysWorld) (targetfd : Nat)
    (hdup : os.fdTable.lookup targetfd = none) :
    (FDCapture.init os w targetfd).1.inner = .degraded ∧
    (FDCapture.init os w targetfd).2 = os ∧
    FDCapture.start os w (FDCapture.init os w targetfd).1 =
      .ok (os, w, (FDCapture.init os w targetfd).1) ∧
    FDCapture.done os w (FDCapture.init os w targetfd).1 =
      .ok (os, w, (FDCapture.init os w targetfd).1) := by
  have h : FDCapture.init os w targetfd =
      ({ targetfd := targetfd, inner := .degraded }, os) := by
    simp [FDCapture.init, OSState.dup, hdup]
  rw [h]
  exact ⟨rfl, rfl, rfl, rfl⟩

/-- Witness for `fd_degraded_capture_is_passthrough`: constructing an
`FDCapture` on descriptor 0 when descriptor 0 is not open. -/
theorem fd_degraded_capture_is_passthrough_witness :
    (FDCapture.init { fdTable := [(1, 10)] }
        { stdinH := .real .stdin, stdoutH := .real .stdout, stderrH := .real .stderr }
        0).1.inner = .degraded ∧
    (FDCapture.init { fdTable := [(1, 10)] }
        { stdinH := .real .stdin, stdoutH := .real .stdout, stderrH := .real .stderr }
        0).2 = { fdTable := [(1, 10)] } ∧
    FDCapture.start { fdTable := [(1, 10)] }
        { stdinH := .real .stdin, stdoutH := .real .stdout, stderrH := .real .stderr }
        (FDCapture.init { fdTable := [(1, 10)] }
          { stdinH := .real .stdin, stdoutH := .real .stdout, stderrH := .real .stderr }
          0).1 =
      .ok ({ fdTable := [(1, 10)] },
        { stdinH := .real .stdin, stdoutH := .real .stdout, stderrH := .real .stderr },
        (FDCapture.init { fdTable := [(1, 10)] }
          { stdinH := .real .stdin, stdoutH := .real .stdout, stderrH := .real .stderr }
          0).1) ∧
    FDCapture.done { fdTable := [(1, 10)] }
        { stdinH := .real .stdin, stdoutH := .real .stdout, stderrH := .real .stderr }
        (FDCapture.init { fdTable := [(1, 10)] }
          { stdinH := .real .stdin, stdoutH := .real .stdout, stderrH := .real .stderr }
          0).1 =
      .ok ({ fdTable := [(1, 10)] },
        { stdinH := .real .stdin, stdoutH := .real .stdout, stderrH := .real .stderr },
        (FDCapture.init { fdTable := [(1, 10)] }
          { stdinH := .real .stdin, stdoutH := .real .stdout, stderrH := .real .stderr }
          0).1) :=
  fd_degraded_capture_is_passthrough { fdTable := [(1, 10)] }
    { stdinH := .real .stdin, stdoutH := .real .stdout, stderrH := .real .stderr }
    0 (by rfl)
